import Mathlib

/-!
Verification development for the qr-tester multi-engine QR scanning pipeline.

The Rust sources are shallowly embedded:
* images become structures carrying dimensions and a pixel lookup function
  (8-bit values are plain `Nat`s, arithmetic that the source performs on
  `u8`/`u32` stays inside those ranges by construction);
* the five third-party decoding engines are opaque in the source and are
  modelled as parameters (`Engine.detect`), exactly as the orchestrator sees
  them;
* fallible Rust functions returning `Result` become `Except String`;
* wall-clock durations become opaque `Nat` inputs (their values are never
  computed by the code under verification, only accumulated).
-/

namespace QrTester

/-- Shallow embedding of `image::GrayImage`: an 8-bit grayscale buffer with
its dimensions.  Pixel values live in `0..=255`. -/
structure GrayImage where
  width : Nat
  height : Nat
  pixel : Nat → Nat → Nat

/-- Shallow embedding of `image::DynamicImage`.  The only operations the
sources perform on it are `width`, `height`, `to_luma8`, `resize` and
`clone`, so the embedding keeps the dimensions together with the luma plane
that `to_luma8` would produce. -/
structure DynamicImage where
  width : Nat
  height : Nat
  luma : Nat → Nat → Nat

/-- Modelled from the spec: `DynamicImage::to_luma8` of the external `image`
crate converts to 8-bit grayscale keeping the dimensions unchanged. -/
def toLuma8 (img : DynamicImage) : GrayImage :=
  { width := img.width, height := img.height, pixel := img.luma }

/-- Row-major list of all pixel values of a grayscale image (the iteration
order of `GrayImage::pixels`). -/
def pixelList (g : GrayImage) : List Nat :=
  ((List.range g.height).map
    (fun y => (List.range g.width).map (fun x => g.pixel x y))).flatten

/-- The `(min, max)` fold from `ImagePreprocessor::enhance_contrast`
(src/preprocessor.rs lines 26-29): fold over all pixels starting from
`(255u8, 0u8)`. -/
def minMaxPixel (g : GrayImage) : Nat × Nat :=
  (pixelList g).foldl (fun mm v => (min mm.1 v, max mm.2 v)) (255, 0)

/-- Modelled from the spec: `imageproc::contrast::stretch_contrast` (external
library), "linear remap between observed min/max pixel values to full
intensity range".  A pixel is clamped into `[lo, hi]` and remapped linearly
onto `[0, 255]`. -/
def stretchContrast (g : GrayImage) (lo hi : Nat) : GrayImage :=
  { width := g.width, height := g.height,
    pixel := fun x y => (min (max (g.pixel x y) lo) hi - lo) * 255 / (hi - lo) }

/-- `ImagePreprocessor::enhance_contrast` (src/preprocessor.rs lines 24-38):
stretch to full range when `min < max`, otherwise return a clone. -/
def enhanceContrast (g : GrayImage) : GrayImage :=
  let mm := minMaxPixel g
  if mm.1 < mm.2 then stretchContrast g mm.1 mm.2 else g

/-- Number of pixels of `g` having value `v` (histogram entry). -/
def histCount (g : GrayImage) (v : Nat) : Nat :=
  ((pixelList g).filter (fun p => p == v)).length

/-- Between-class variance score used by Otsu threshold selection at
threshold `t`, as an exact rational.  With `n₀, n₁` the pixel counts of the
two classes and `s₀, s₁` their intensity sums, the score is
`(n₁·s₀ - n₀·s₁)² / (n₀·n₁)`, which is `n₀·n₁·(μ₀-μ₁)²`. -/
def otsuScore (g : GrayImage) (t : Nat) : ℚ :=
  let n0 := ((List.range (t + 1)).map (fun v => histCount g v)).sum
  let n1 := ((List.range 256).map (fun v => histCount g v)).sum - n0
  let s0 := ((List.range (t + 1)).map (fun v => v * histCount g v)).sum
  let s1 := ((List.range 256).map (fun v => v * histCount g v)).sum - s0
  if n0 = 0 ∨ n1 = 0 then 0
  else ((n1 * s0 : ℚ) - (n0 * s1 : ℚ)) ^ 2 / ((n0 : ℚ) * (n1 : ℚ))

/-- Modelled from the spec: `imageproc::contrast::otsu_level` (external
library), the "histogram-based optimal bi-level threshold": the threshold in
`0..=255` maximizing the between-class variance (first maximizer wins). -/
def otsuLevel (g : GrayImage) : Nat :=
  ((List.range 256).foldl
    (fun best t => if otsuScore g t > best.2 then (t, otsuScore g t) else best)
    (0, otsuScore g 0)).1

/-- Modelled from the spec: `imageproc::contrast::threshold` with
`ThresholdType::Binary` (external library): pixels above the level become
255, the rest 0. -/
def thresholdBinary (g : GrayImage) (level : Nat) : GrayImage :=
  { width := g.width, height := g.height,
    pixel := fun x y => if level < g.pixel x y then 255 else 0 }

/-- `ImagePreprocessor::otsu_binarization` (src/preprocessor.rs lines
12-16). -/
def otsuBinarization (g : GrayImage) : GrayImage :=
  thresholdBinary g (otsuLevel g)

/-- `ImagePreprocessor::invert` (src/preprocessor.rs lines 41-46). -/
def invert (g : GrayImage) : GrayImage :=
  { width := g.width, height := g.height,
    pixel := fun x y => 255 - g.pixel x y }

/-- Modelled from the spec: `imageproc::contrast::adaptive_threshold`
(external library): each pixel is compared against the mean of the
`(2r+1)×(2r+1)` block around it, clipped to the image, producing 255 or 0.
Exact block/mean conventions of the library are irrelevant to the claims
(only the dimensions matter); the block-local mean is modelled directly. -/
def adaptiveThresholdImage (g : GrayImage) (r : Nat) : GrayImage :=
  { width := g.width, height := g.height,
    pixel := fun x y =>
      let x0 := x - r
      let y0 := y - r
      let x1 := min (x + r) (g.width - 1)
      let y1 := min (y + r) (g.height - 1)
      let w := x1 + 1 - x0
      let h := y1 + 1 - y0
      let s := (((List.range h).map
        (fun dy => ((List.range w).map (fun dx => g.pixel (x0 + dx) (y0 + dy))).sum)).sum)
      if g.pixel x y * (w * h) ≤ s then 255 else 0 }

/-- The block radius `(width.min(height) / 50).clamp(5, 50)` from
src/preprocessor.rs line 88. -/
def blockRadius (w h : Nat) : Nat :=
  min (max (min w h / 50) 5) 50

/-- `ImagePreprocessor::resize` (src/preprocessor.rs lines 49-58).  The
`f32` scale factor is modelled as the exact rational `scaleNum / scaleDen`;
the `as u32` casts truncate, which is `Nat` floor division.  The library
`resize` call preserves the aspect ratio while fitting the requested
bounds; since both bounds are produced from the same scale this yields the
requested dimensions, with pixels sampled from the source. -/
def resize (img : DynamicImage) (scaleNum scaleDen : Nat) : DynamicImage :=
  let nw := img.width * scaleNum / scaleDen
  let nh := img.height * scaleNum / scaleDen
  if 0 < nw ∧ 0 < nh then
    { width := nw, height := nh,
      luma := fun x y => img.luma (x * scaleDen / scaleNum) (y * scaleDen / scaleNum) }
  else img

/-- `ImagePreprocessor::generate_variants` (src/preprocessor.rs lines
61-105): original grayscale, contrast-enhanced, Otsu-binarized and inverted
variants, plus an adaptive-threshold variant only when the image is larger
than 100×100 and below ten million pixels. -/
def generateVariants (img : DynamicImage) : List (String × GrayImage) :=
  let gray := toLuma8 img
  let enhanced := enhanceContrast gray
  let base : List (String × GrayImage) :=
    [("original", gray),
     ("contrast_enhanced", enhanced),
     ("otsu", otsuBinarization enhanced),
     ("inverted", invert enhanced)]
  if 100 < gray.width ∧ 100 < gray.height ∧ gray.width * gray.height < 10000000 then
    base ++ [("adaptive", adaptiveThresholdImage enhanced (blockRadius gray.width gray.height))]
  else base

/-- The skip-logging branch of `generate_variants` (src/preprocessor.rs
lines 97-102): the "skipping adaptive threshold" debug message is emitted
only in the `else if pixel_count >= 10_000_000` arm. -/
def adaptiveSkipLogged (img : DynamicImage) : Bool :=
  let gray := toLuma8 img
  if 100 < gray.width ∧ 100 < gray.height ∧ gray.width * gray.height < 10000000 then
    false
  else if 10000000 ≤ gray.width * gray.height then true
  else false

/-! ## Detection orchestrator (src/scanner.rs) -/

/-- Step 0 of `QrScanner::detect_qr_codes` (src/scanner.rs lines 102-117):
images whose larger dimension exceeds 2000 are resized by the scale
`2000 / max_dimension` before variant generation. -/
def workingImage (img : DynamicImage) : DynamicImage :=
  let maxDimension := max img.width img.height
  if 2000 < maxDimension then resize img 2000 maxDimension else img

/-- The variants an image is scanned with: `generate_variants` applied to
the (possibly downsampled) working image (src/scanner.rs line 120). -/
def scanVariants (img : DynamicImage) : List (String × GrayImage) :=
  generateVariants (workingImage img)

/-- An engine adapter as the orchestrator sees it: a name and an opaque
`detect(variant) -> Result<Vec<String>>` capability.  The five concrete
adapters (`detect_with_rqrr`, `detect_with_rxing`, `detect_with_quircs`,
`detect_with_bardecoder`, `detect_with_zbar_pack`, src/scanner.rs lines
287-454) wrap external libraries and are therefore opaque parameters of the
embedding. -/
structure Engine where
  name : String
  detect : GrayImage → Except String (List String)

/-- One engine block of `QrScanner::detect_qr_codes` (e.g. src/scanner.rs
lines 134-148): for each variant, a non-empty `Ok` result is accumulated
into the engine's hash set; empty `Ok` results and `Err` results contribute
nothing. -/
def runEngine (e : Engine) (variants : List (String × GrayImage)) : Finset String :=
  variants.foldl
    (fun acc v =>
      match e.detect v.2 with
      | Except.ok codes => if codes.isEmpty then acc else acc ∪ codes.toFinset
      | Except.error _ => acc)
    ∅

/-- The engine loop of `QrScanner::detect_qr_codes` (src/scanner.rs lines
128-271): every engine's deduplicated codes are merged into the global hash
set and appended as that engine's `EngineResult` entry.  The source unrolls
this loop over its five fixed engines (see `theEngines`); the fold is the
same sequential accumulation. -/
def detectSteps (engines : List Engine) (variants : List (String × GrayImage)) :
    Finset String × List (String × Finset String) :=
  engines.foldl
    (fun acc e =>
      let codes := runEngine e variants
      (acc.1 ∪ codes, acc.2 ++ [(e.name, codes)]))
    (∅, [])

/-- `QrScanner::detect_qr_codes` (src/scanner.rs lines 95-284): resize,
generate variants, run every engine over every variant, and return the
deduplicated global payload set together with the per-engine breakdown.
The body has no failing path: it always ends in `Ok((results,
engine_results))`. -/
def detectQrCodes (engines : List Engine) (img : DynamicImage) :
    Except String (Finset String × List (String × Finset String)) :=
  Except.ok (detectSteps engines (scanVariants img))

/-- The global deduplicated payload set produced by the orchestrator. -/
def globalPayloads (engines : List Engine) (img : DynamicImage) : Finset String :=
  (detectSteps engines (scanVariants img)).1

/-- The per-engine result breakdown produced by the orchestrator. -/
def engineBreakdown (engines : List Engine) (img : DynamicImage) :
    List (String × Finset String) :=
  (detectSteps engines (scanVariants img)).2

/-- Enumeration of a payload hash set as a list, as
`HashSet::into_iter().collect::<Vec<_>>()` does.  The hash set iteration
order is unspecified in Rust; the embedding fixes the lexicographic order,
which determines the same multiset of elements. -/
def setToList (s : Finset String) : List String :=
  s.sort (fun a b => a ≤ b)

/-- The final payload list `all_results.into_iter().collect()`
(src/scanner.rs line 276): the global hash set enumerated as a list. -/
def finalPayloadList (engines : List Engine) (img : DynamicImage) : List String :=
  setToList (globalPayloads engines img)

/-- The fixed engine order of `detect_qr_codes`: rqrr, rxing, quircs,
bardecoder, zbar-pack (src/scanner.rs lines 131-271), with the concrete
detection functions as opaque parameters. -/
def theEngines (rqrr rxing quircs bardecoder zbarPack :
    GrayImage → Except String (List String)) : List Engine :=
  [{ name := "rqrr", detect := rqrr },
   { name := "rxing", detect := rxing },
   { name := "quircs", detect := quircs },
   { name := "bardecoder", detect := bardecoder },
   { name := "zbar-pack", detect := zbarPack }]

/-! ## Scanner state: statistics, file scans, directory scans -/

/-- `ScanStats` (src/timer.rs lines 72-88), durations as `Nat`. -/
structure ScanStats where
  total_files : Nat
  successful_scans : Nat
  failed_scans : Nat
  files_with_qr : Nat
  total_qr_codes : Nat
  total_duration : Nat
  avg_duration_per_file : Nat

/-- `ScanStats::new` (src/timer.rs lines 91-101). -/
def ScanStats.new : ScanStats :=
  { total_files := 0, successful_scans := 0, failed_scans := 0,
    files_with_qr := 0, total_qr_codes := 0, total_duration := 0,
    avg_duration_per_file := 0 }

/-- `ScanStats::finalize` (src/timer.rs lines 103-107). -/
def ScanStats.finalize (s : ScanStats) : ScanStats :=
  if 0 < s.total_files then
    { s with avg_duration_per_file := s.total_duration / s.total_files }
  else s

/-- `ScanResult` (src/scanner.rs lines 27-40), timing omitted (its fields
are opaque measured durations). -/
structure ScanResult where
  file_path : String
  qr_codes : List String
  engine_results : List (String × Finset String)
  success : Bool
  error : Option String

/-- What the filesystem can hold at a path, as `scan_file` observes it:
an unreadable file (`fs::read` fails), a readable file that is not a
decodable image (`image::load_from_memory` fails), or a decodable image. -/
inductive RawFile where
  | unreadable : RawFile
  | badImage : RawFile
  | good : DynamicImage → RawFile

/-- The read-and-decode step of `scan_file` (src/scanner.rs lines 62-66),
with the `anyhow` context messages attached to each failure. -/
def loadImage (path : String) (f : RawFile) : Except String DynamicImage :=
  match f with
  | RawFile.unreadable => Except.error ("Failed to read file: " ++ path)
  | RawFile.badImage => Except.error ("Failed to decode image: " ++ path)
  | RawFile.good img => Except.ok img

/-- `QrScanner::scan_file` (src/scanner.rs lines 56-91): load the image
(propagating failures via `?` before any statistics are touched), run the
orchestrator, then update the statistics and build the `ScanResult`.
`dur` is the opaque measured total duration of this call. -/
def scanFile (engines : List Engine) (s : ScanStats) (path : String)
    (f : RawFile) (dur : Nat) : Except String ScanResult × ScanStats :=
  match loadImage path f with
  | Except.error msg => (Except.error msg, s)
  | Except.ok img =>
    match detectQrCodes engines img with
    | Except.error msg => (Except.error msg, s)
    | Except.ok (qrSet, engineResults) =>
      let qr_codes := setToList qrSet
      let s1 : ScanStats :=
        { s with total_files := s.total_files + 1,
                 successful_scans := s.successful_scans + 1,
                 total_duration := s.total_duration + dur }
      let s2 : ScanStats :=
        if qr_codes.isEmpty then s1
        else { s1 with files_with_qr := s1.files_with_qr + 1,
                       total_qr_codes := s1.total_qr_codes + qr_codes.length }
      (Except.ok { file_path := path, qr_codes := qr_codes,
                   engine_results := engineResults, success := true,
                   error := none }, s2)

/-- The fixed allow-list of image extensions (src/scanner.rs line 464). -/
def imageExtensions : List String :=
  ["png", "jpg", "jpeg", "bmp", "gif", "webp", "tiff", "tif"]

/-- One directory entry as the walker yields it: its path, whether it is a
regular file, its extension (if any) and its content. -/
structure DirEntry where
  path : String
  isFile : Bool
  ext : Option String
  file : RawFile
  dur : Nat

/-- Modelled from the spec: Rust's `str::to_lowercase` on extension
strings, "case-insensitive" extension matching — character-wise
lowercasing. -/
def strToLower (s : String) : String :=
  String.mk (s.data.map Char.toLower)

/-- The filter of `scan_directory` (src/scanner.rs lines 473-485): regular
files whose lowercased extension is in the allow-list. -/
def entryIsImage (e : DirEntry) : Bool :=
  e.isFile &&
    match e.ext with
    | some ext => imageExtensions.contains (strToLower ext)
    | none => false

/-- The statistics update of the `Err` arm of `scan_directory`
(src/scanner.rs lines 492-495). -/
def failBump (s : ScanStats) : ScanStats :=
  { s with total_files := s.total_files + 1, failed_scans := s.failed_scans + 1 }

/-- One iteration of the `scan_directory` walk loop (src/scanner.rs lines
466-507): skip non-image entries; on a successful `scan_file` push its
result; on a failed one record a failure entry (empty payloads, non-empty
error message) and bump the failure counters. -/
def scanDirStep (engines : List Engine) (acc : List ScanResult × ScanStats)
    (e : DirEntry) : List ScanResult × ScanStats :=
  if entryIsImage e then
    match scanFile engines acc.2 e.path e.file e.dur with
    | (Except.ok r, s) => (acc.1 ++ [r], s)
    | (Except.error msg, s) =>
      (acc.1 ++ [{ file_path := e.path, qr_codes := [], engine_results := [],
                   success := false, error := some msg }], failBump s)
  else acc

/-- The walk loop of `scan_directory`, threading the accumulated results
and statistics through the entries in order. -/
def scanDirGo (engines : List Engine) (acc : List ScanResult × ScanStats) :
    List DirEntry → List ScanResult × ScanStats
  | [] => acc
  | e :: rest => scanDirGo engines (scanDirStep engines acc e) rest

/-- `QrScanner::scan_directory` (src/scanner.rs lines 457-516). -/
def scanDirectory (engines : List Engine) (s : ScanStats)
    (entries : List DirEntry) : List ScanResult × ScanStats :=
  scanDirGo engines ([], s) entries

/-- One public scanner operation: a single-file scan or a directory scan. -/
inductive ScanOp where
  | file : String → RawFile → Nat → ScanOp
  | dir : List DirEntry → ScanOp

/-- Effect of one operation on the statistics accumulator. -/
def applyOp (engines : List Engine) (s : ScanStats) : ScanOp → ScanStats
  | ScanOp.file p f d => (scanFile engines s p f d).2
  | ScanOp.dir es => (scanDirectory engines s es).2

/-- Statistics after a sequence of operations on a fresh `QrScanner`. -/
def runOps (engines : List Engine) (ops : List ScanOp) : ScanStats :=
  ops.foldl (applyOp engines) ScanStats.new

/-! ## Diagnostic analyzer (src/analyzer.rs) -/

/-- Substring test on character lists: does the haystack contain the needle
as a contiguous run?  Mirrors Rust's `str::contains` for the literal
needles used by the analyzer. -/
def charsStartWith : List Char → List Char → Bool
  | [], _ => true
  | _ :: _, [] => false
  | a :: as, b :: bs => a == b && charsStartWith as bs

/-- Haystack scan for `charsStartWith` at every position. -/
def charsContain (needle : List Char) : List Char → Bool
  | [] => needle.isEmpty
  | hay@(_ :: rest) => charsStartWith needle hay || charsContain needle rest

/-- Rust `str::contains` on the embedding's strings. -/
def strContainsSub (s pat : String) : Bool :=
  charsContain pat.toList s.toList

/-- The error enum of the external `rqrr` crate (`rqrr::DeQRError`). -/
inductive DeQRError where
  | dataUnderflow | dataOverflow | unknownDataType | dataEcc | formatEcc
  | invalidVersion | invalidGridSize | encodingError | ioError

/-- `QrAnalyzer::analyze_rqrr_error` (src/analyzer.rs lines 186-243):
classification tag and causal explanation for each `rqrr` failure. -/
def analyzeRqrrError : DeQRError → String × String
  | DeQRError.dataUnderflow =>
    ("DataUnderflow",
     "数据不足: QR 码数据区域的码字数量少于预期。\n可能原因: 图像模糊、码点缺损、版本检测错误。")
  | DeQRError.dataOverflow =>
    ("DataOverflow",
     "数据溢出: QR 码数据区域的码字数量超出预期。\n可能原因: 版本检测错误、干扰码点被误读。")
  | DeQRError.unknownDataType =>
    ("UnknownDataType",
     "未知数据类型: 无法识别 QR 码的编码模式。\n可能原因: 数据区域损坏、纠错失败导致模式指示符错误。")
  | DeQRError.dataEcc =>
    ("DataEcc",
     "数据纠错失败: RS 纠错码无法恢复数据。\n可能原因: 码点损坏超出纠错能力、污染或遮挡严重。\n这是最常见的失败原因，通常意味着 QR 码损坏程度超过了纠错等级的容错能力。")
  | DeQRError.formatEcc =>
    ("FormatEcc",
     "格式信息纠错失败: 无法从两个位置读取有效的格式信息。\n可能原因: 定位图案周围的格式区域损坏。\n格式信息包含纠错等级和掩码图案，位于 QR 码的固定位置。")
  | DeQRError.invalidVersion =>
    ("InvalidVersion",
     "无效版本: 检测到不支持或不存在的 QR 码版本。\n可能原因: 版本信息区域损坏 (版本 7+ 的 QR 码有专门的版本信息区)。")
  | DeQRError.invalidGridSize =>
    ("InvalidGridSize",
     "无效网格尺寸: 检测到的 QR 码尺寸不符合规范。\n可能原因: 图像变形、定位图案检测错误。")
  | DeQRError.encodingError =>
    ("EncodingError",
     "编码错误: 解码后的数据不是有效的 UTF-8。\n可能原因: QR 码使用了非 UTF-8 编码 (如 Shift-JIS)。")
  | DeQRError.ioError =>
    ("IoError", "I/O 错误: 输出写入失败。")

/-- The decode-error enum of the external `quircs` crate
(`quircs::DecodeError`; the misspelt `UnkownDataType` variant name is the
library's). -/
inductive QuircsDecodeError where
  | invalidGridSize | invalidVersion | dataEcc | formatEcc
  | unkownDataType | dataOverflow | dataUnderflow

/-- `QrAnalyzer::analyze_quircs_decode_error` (src/analyzer.rs lines
321-357). -/
def analyzeQuircsDecodeError : QuircsDecodeError → String × String
  | QuircsDecodeError.invalidGridSize =>
    ("InvalidGridSize", "无效网格尺寸: QR 码的模块数量不符合规范 (应为 21+4n)。")
  | QuircsDecodeError.invalidVersion =>
    ("InvalidVersion", "无效版本: 检测到的版本号超出 1-40 的有效范围。")
  | QuircsDecodeError.dataEcc =>
    ("DataEcc",
     "数据纠错失败: RS 码无法恢复损坏的数据码字。\nQR 码损坏程度超过了纠错能力。")
  | QuircsDecodeError.formatEcc =>
    ("FormatEcc",
     "格式信息错误: 无法读取纠错等级和掩码信息。\n定位图案周围的 15 位格式信息区域损坏。")
  | QuircsDecodeError.unkownDataType =>
    ("UnknownDataType",
     "未知数据类型: 数据模式指示符无法识别 (0001=数字, 0010=字母数字, 0100=字节, 1000=汉字)。")
  | QuircsDecodeError.dataOverflow =>
    ("DataOverflow", "数据溢出: 解码的数据长度超出该版本容量。")
  | QuircsDecodeError.dataUnderflow =>
    ("DataUnderflow", "数据不足: 数据码字不完整。")

/-- The extract-error enum of the external `quircs` crate
(`quircs::ExtractError`). -/
inductive QuircsExtractError where
  | outOfBounds

/-- `QrAnalyzer::analyze_quircs_extract_error` (src/analyzer.rs lines
360-369). -/
def analyzeQuircsExtractError : QuircsExtractError → String × String
  | QuircsExtractError.outOfBounds =>
    ("OutOfBounds",
     "越界错误: 提取码点时坐标超出图像边界。\n可能原因: QR 码靠近图像边缘、透视变换计算错误。")

/-- The exception enum of the external `rxing` crate (`rxing::Exceptions`),
restricted to the arms the analyzer distinguishes; every remaining variant
is carried as its debug rendering. -/
inductive RxingException where
  | notFound : String → RxingException
  | formatExc : String → RxingException
  | checksumExc : String → RxingException
  | reedSolomon : String → RxingException
  | otherExc : String → RxingException

/-- `QrAnalyzer::analyze_rxing_error` (src/analyzer.rs lines 426-478). -/
def analyzeRxingError : RxingException → String × String
  | RxingException.notFound _ =>
    ("NotFoundException",
     "未找到 QR 码: 无法在图像中检测到有效的 QR 码定位图案。\n可能原因: 图像模糊、对比度不足、QR 码被遮挡或变形。")
  | RxingException.formatExc msg =>
    ("FormatException",
     "格式错误: 检测到的图案不符合 QR 码规范。\n详情: "
       ++ (if msg.isEmpty then "无详细信息" else msg)
       ++ "\n可能原因: 图像噪点、非标准 QR 码。")
  | RxingException.checksumExc msg =>
    ("ChecksumException",
     "校验和错误: 数据验证失败。\n详情: "
       ++ (if msg.isEmpty then "无详细信息" else msg)
       ++ "\n可能原因: 数据区域损坏、纠错能力不足。")
  | RxingException.reedSolomon msg =>
    ("ReedSolomonException",
     "Reed-Solomon 纠错失败: 无法恢复损坏的码字。\n详情: "
       ++ (if msg.isEmpty then "无详细信息" else msg)
       ++ "\n这是 QR 码纠错算法层面的失败，意味着损坏程度超过了容错能力。")
  | RxingException.otherExc dbg =>
    (dbg, "其他错误，请查看详细日志。")

/-- `GridAnalysis` (src/analyzer.rs lines 29-39). -/
structure GridAnalysis where
  grid_index : Nat
  version : Option Nat
  module_size : Option (Nat × Nat)
  decode_success : Bool
  error_type : Option String
  error_detail : String
  content : Option String

/-- `EngineAnalysis` (src/analyzer.rs lines 19-25). -/
structure EngineAnalysis where
  engine_name : String
  grids_detected : Nat
  decode_results : List GridAnalysis
  success : Bool
  summary : String

/-- Decode metadata `rqrr` exposes on success (`meta.version.0` and
`meta.ecc_level`). -/
structure RqrrMeta where
  version : Nat
  eccLevel : Nat

/-- One iteration of the grid loop of `analyze_with_rqrr` (src/analyzer.rs
lines 131-162). -/
def rqrrGridAnalysis (i : Nat) (g : Except DeQRError (RqrrMeta × String)) :
    GridAnalysis :=
  match g with
  | Except.ok (meta, content) =>
    { grid_index := i, version := none, module_size := none,
      decode_success := true, error_type := none,
      error_detail := "Version " ++ toString meta.version ++ ", ECC level "
        ++ toString meta.eccLevel ++ ", " ++ toString (meta.version * 4 + 17)
        ++ " modules",
      content := some content }
  | Except.error e =>
    let td := analyzeRqrrError e
    { grid_index := i, version := none, module_size := none,
      decode_success := false, error_type := some td.1,
      error_detail := td.2, content := none }

/-- The enumerated grid loop of `analyze_with_rqrr`. -/
def rqrrGridAnalyses (i : Nat) :
    List (Except DeQRError (RqrrMeta × String)) → List GridAnalysis
  | [] => []
  | g :: rest => rqrrGridAnalysis i g :: rqrrGridAnalyses (i + 1) rest

/-- `QrAnalyzer::analyze_with_rqrr` (src/analyzer.rs lines 123-183), with
the opaque library outcome (one decode result per detected grid) as a
parameter. -/
def analyzeWithRqrr (variantName : String)
    (grids : List (Except DeQRError (RqrrMeta × String))) : EngineAnalysis :=
  let grids_detected := grids.length
  let decode_results := rqrrGridAnalyses 0 grids
  let any_success := decode_results.any (fun r => r.decode_success)
  let summary :=
    if grids_detected = 0 then "No QR code patterns detected"
    else if any_success then
      "Successfully decoded "
        ++ toString (decode_results.countP (fun r => r.decode_success))
        ++ "/" ++ toString grids_detected ++ " grids"
    else "Detected " ++ toString grids_detected ++ " grids but all failed to decode"
  { engine_name := "rqrr (" ++ variantName ++ ")",
    grids_detected := grids_detected, decode_results := decode_results,
    success := any_success, summary := summary }

/-- Decode payload `quircs` exposes on success; the payload text is the
UTF-8 reading of the payload when valid. -/
structure QuircsDecoded where
  version : Nat
  eccLevel : Nat
  dataType : Nat
  payloadUtf8 : Option String

/-- One iteration of the code loop of `analyze_with_quircs`
(src/analyzer.rs lines 257-297). -/
def quircsCodeAnalysis (i : Nat)
    (c : Except QuircsExtractError (Except QuircsDecodeError QuircsDecoded)) :
    GridAnalysis :=
  match c with
  | Except.ok (Except.ok decoded) =>
    { grid_index := i, version := none, module_size := none,
      decode_success := true, error_type := none,
      error_detail := "Version " ++ toString decoded.version ++ ", ECC level "
        ++ toString decoded.eccLevel ++ ", Data type " ++ toString decoded.dataType,
      content := some (decoded.payloadUtf8.getD "<binary data>") }
  | Except.ok (Except.error e) =>
    let td := analyzeQuircsDecodeError e
    { grid_index := i, version := none, module_size := none,
      decode_success := false, error_type := some td.1,
      error_detail := td.2, content := none }
  | Except.error e =>
    let td := analyzeQuircsExtractError e
    { grid_index := i, version := none, module_size := none,
      decode_success := false, error_type := some td.1,
      error_detail := td.2, content := none }

/-- The enumerated code loop of `analyze_with_quircs`. -/
def quircsCodeAnalyses (i : Nat) :
    List (Except QuircsExtractError (Except QuircsDecodeError QuircsDecoded)) →
    List GridAnalysis
  | [] => []
  | c :: rest => quircsCodeAnalysis i c :: quircsCodeAnalyses (i + 1) rest

/-- `QrAnalyzer::analyze_with_quircs` (src/analyzer.rs lines 246-318), with
the opaque library outcomes as a parameter. -/
def analyzeWithQuircs (variantName : String)
    (codes : List (Except QuircsExtractError (Except QuircsDecodeError QuircsDecoded))) :
    EngineAnalysis :=
  let grids_detected := codes.length
  let decode_results := quircsCodeAnalyses 0 codes
  let any_success := decode_results.any (fun r => r.decode_success)
  let summary :=
    if grids_detected = 0 then "No QR code patterns detected"
    else if any_success then
      "Successfully decoded "
        ++ toString (decode_results.countP (fun r => r.decode_success))
        ++ "/" ++ toString grids_detected ++ " codes"
    else "Detected " ++ toString grids_detected ++ " codes but all failed to decode"
  { engine_name := "quircs (" ++ variantName ++ ")",
    grids_detected := grids_detected, decode_results := decode_results,
    success := any_success, summary := summary }

/-- What `rxing` exposes on a successful decode. -/
structure RxingDecoded where
  text : String
  format : String

/-- `QrAnalyzer::analyze_with_rxing` (src/analyzer.rs lines 372-423), with
the opaque library outcome as a parameter.  On failure the engine reports
zero detected grids but still one classified `GridAnalysis` entry. -/
def analyzeWithRxing (variantName : String)
    (outcome : Except RxingException RxingDecoded) : EngineAnalysis :=
  match outcome with
  | Except.ok r =>
    { engine_name := "rxing (" ++ variantName ++ ")",
      grids_detected := 1,
      decode_results :=
        [{ grid_index := 0, version := none, module_size := none,
           decode_success := true, error_type := none,
           error_detail := "Format: " ++ r.format, content := some r.text }],
      success := true, summary := "Successfully decoded 1 QR code" }
  | Except.error e =>
    let td := analyzeRxingError e
    { engine_name := "rxing (" ++ variantName ++ ")",
      grids_detected := 0,
      decode_results :=
        [{ grid_index := 0, version := none, module_size := none,
           decode_success := false, error_type := some td.1,
           error_detail := td.2, content := none }],
      success := false, summary := "Detection failed: " ++ td.1 }

/-- The "no pattern found" recommendation (src/analyzer.rs lines 487-494). -/
def recNoPattern : String :=
  "未检测到任何 QR 码图案。建议:\n1. 检查图像是否包含 QR 码\n2. 尝试提高图像对比度\n3. 确保 QR 码完整可见，没有被裁剪\n4. 如果 QR 码很小，尝试放大图像"

/-- The recoverable-by-cleaner-image recommendation emitted for DataEcc
failures (src/analyzer.rs lines 516-523). -/
def recDataEcc : String :=
  "数据纠错失败 (DataEcc) 是最常见的问题。建议:\n1. QR 码可能损坏严重 - 检查是否有污渍、划痕或褪色\n2. 尝试更清晰的图像源\n3. 如果是印刷品，确保扫描分辨率足够 (至少 300 DPI)\n4. 检查 QR 码生成时使用的纠错等级 (L/M/Q/H)"

/-- The corner-region-damage recommendation emitted for FormatEcc failures
(src/analyzer.rs lines 527-532). -/
def recFormatEcc : String :=
  "格式信息错误 (FormatEcc) 表示 QR 码的元数据区域损坏。建议:\n1. 检查 QR 码三个角的定位图案周围区域\n2. 格式信息位于定位图案旁的 L 形区域\n3. 这些区域不能有任何损坏"

/-- The generic re-capture recommendation (src/analyzer.rs lines 537-542). -/
def recGeneric : String :=
  "所有引擎都检测到了 QR 码但解码失败。建议:\n1. 尝试调整图像亮度和对比度\n2. 使用 --debug 模式查看更多细节\n3. 尝试不同角度重新拍摄"

/-- `QrAnalyzer::generate_recommendations` (src/analyzer.rs lines 481-547):
the no-pattern recommendation when no engine detected a grid; otherwise the
DataEcc and FormatEcc recommendations when some classified error type
contains those substrings, and a generic recommendation when neither fired
and no engine succeeded. -/
def generateRecommendations (analyses : List EngineAnalysis) : List String :=
  let total_grids := (analyses.map (fun a => a.grids_detected)).sum
  if total_grids = 0 then [recNoPattern]
  else
    let has_data_ecc := analyses.any (fun a => a.decode_results.any (fun r =>
      match r.error_type with
      | some t => strContainsSub t ("DataEcc")
      | none => false))
    let has_format_ecc := analyses.any (fun a => a.decode_results.any (fun r =>
      match r.error_type with
      | some t => strContainsSub t ("FormatEcc")
      | none => false))
    let recommendations :=
      (if has_data_ecc then [recDataEcc] else [])
        ++ (if has_format_ecc then [recFormatEcc] else [])
    if recommendations.isEmpty && !(analyses.any (fun a => a.success)) then
      recommendations ++ [recGeneric]
    else recommendations

/-- The opaque per-engine library outcomes `analyze_file` observes on the
first variant of a file (src/analyzer.rs lines 86-107). -/
structure EngineOutcomes where
  rqrrGrids : List (Except DeQRError (RqrrMeta × String))
  quircsCodes : List (Except QuircsExtractError (Except QuircsDecodeError QuircsDecoded))
  rxingOutcome : Except RxingException RxingDecoded

/-- The engine-analysis list `analyze_file` assembles, in its fixed order
rqrr, quircs, rxing (src/analyzer.rs lines 86-107). -/
def analyzeFileAnalyses (variantName : String) (o : EngineOutcomes) :
    List EngineAnalysis :=
  [analyzeWithRqrr variantName o.rqrrGrids,
   analyzeWithQuircs variantName o.quircsCodes,
   analyzeWithRxing variantName o.rxingOutcome]

/-! ## Helper lemmas -/

@[simp] theorem toLuma8_width (img : DynamicImage) : (toLuma8 img).width = img.width := rfl

@[simp] theorem toLuma8_height (img : DynamicImage) : (toLuma8 img).height = img.height := rfl

@[simp] theorem stretchContrast_width (g : GrayImage) (lo hi : Nat) :
    (stretchContrast g lo hi).width = g.width := rfl

@[simp] theorem stretchContrast_height (g : GrayImage) (lo hi : Nat) :
    (stretchContrast g lo hi).height = g.height := rfl

@[simp] theorem enhanceContrast_width (g : GrayImage) :
    (enhanceContrast g).width = g.width := by
  simp only [enhanceContrast]
  split <;> rfl

@[simp] theorem enhanceContrast_height (g : GrayImage) :
    (enhanceContrast g).height = g.height := by
  simp only [enhanceContrast]
  split <;> rfl

@[simp] theorem thresholdBinary_width (g : GrayImage) (level : Nat) :
    (thresholdBinary g level).width = g.width := rfl

@[simp] theorem thresholdBinary_height (g : GrayImage) (level : Nat) :
    (thresholdBinary g level).height = g.height := rfl

@[simp] theorem otsuBinarization_width (g : GrayImage) :
    (otsuBinarization g).width = g.width := rfl

@[simp] theorem otsuBinarization_height (g : GrayImage) :
    (otsuBinarization g).height = g.height := rfl

@[simp] theorem invert_width (g : GrayImage) : (invert g).width = g.width := rfl

@[simp] theorem invert_height (g : GrayImage) : (invert g).height = g.height := rfl

@[simp] theorem adaptiveThresholdImage_width (g : GrayImage) (r : Nat) :
    (adaptiveThresholdImage g r).width = g.width := rfl

@[simp] theorem adaptiveThresholdImage_height (g : GrayImage) (r : Nat) :
    (adaptiveThresholdImage g r).height = g.height := rfl

/-! ## C6: variants are non-empty, original-first, uniformly dimensioned -/

/-- C6.  For every input image, `generate_variants` returns a non-empty
sequence of labeled grayscale variants whose first element is the
unmodified grayscale labeled "original", and every variant has the same
width and height as the input image (hence as every other variant). -/
theorem variants_nonempty_original_first_uniform_dims (img : DynamicImage) :
    (generateVariants img).isEmpty = false
    ∧ (generateVariants img).head? = some ("original", toLuma8 img)
    ∧ ((generateVariants img).map (fun v => (v.2.width, v.2.height))).all
        (fun wh => wh == (img.width, img.height)) = true := by
  simp only [generateVariants]
  refine ⟨?_, ?_, ?_⟩
  · split <;> simp
  · split <;> rfl
  · split <;> simp

/-- Characterization of the variant labels produced by
`generate_variants`. -/
theorem generateVariants_labels (img : DynamicImage) :
    (generateVariants img).map (fun v => v.1) =
      if 100 < img.width ∧ 100 < img.height ∧ img.width * img.height < 10000000 then
        ["original", "contrast_enhanced", "otsu", "inverted", "adaptive"]
      else ["original", "contrast_enhanced", "otsu", "inverted"] := by
  simp only [generateVariants, toLuma8]
  split
  case isTrue h => rfl
  case isFalse h => rfl

/-! ## C7: oversized images -/

/-- A 5000×5000 source image with the given pixel plane. -/
def oversized (f : Nat → Nat → Nat) : DynamicImage :=
  { width := 5000, height := 5000, luma := f }

/-- A concrete 5000×5000 source image. -/
def oversizedImage : DynamicImage := oversized (fun _ _ => 128)

/-- C7 counterexample.  On a 5000×5000 input the scan first downsamples to
2000×2000, and at that size the adaptive-threshold variant is generated,
not skipped. -/
theorem oversized_scan_generates_adaptive_variant :
    (workingImage oversizedImage).width = 2000
    ∧ (workingImage oversizedImage).height = 2000
    ∧ "adaptive" ∈ (generateVariants (workingImage oversizedImage)).map (fun v => v.1) :=
  ⟨by decide, by decide, by decide⟩

/-- C7 amended.  For every 5000×5000 source image, the scan downsamples it
to 2000×2000 before variant generation, all five variants (including the
adaptive-threshold one) are generated, and the adaptive computation stays
within the `u32` integral-image bound (`width·height·255 < 2³²`). -/
theorem oversized_image_downsampled_all_variants (f : Nat → Nat → Nat) :
    (workingImage (oversized f)).width = 2000
    ∧ (workingImage (oversized f)).height = 2000
    ∧ (generateVariants (workingImage (oversized f))).map (fun v => v.1)
        = ["original", "contrast_enhanced", "otsu", "inverted", "adaptive"]
    ∧ (workingImage (oversized f)).width * (workingImage (oversized f)).height * 255
        < 4294967296 := by
  have hw : (workingImage (oversized f)).width = 2000 := by
    simp only [workingImage, oversized, resize]
    norm_num
  have hh : (workingImage (oversized f)).height = 2000 := by
    simp only [workingImage, oversized, resize]
    norm_num
  refine ⟨hw, hh, ?_, by rw [hw, hh]; norm_num⟩
  rw [generateVariants_labels, hw, hh]
  norm_num

/-! ## C8: the adaptive-threshold inclusion condition -/

/-- A concrete 50×50 source image. -/
def smallImage : DynamicImage := { width := 50, height := 50, luma := fun _ _ => 0 }

/-- C8 counterexample.  A 50×50 image has a pixel count far below the
ten-million ceiling, yet `generate_variants` does not include the adaptive
variant (the `width > 100 && height > 100` guard fails), and the skip is
not logged either (the log fires only when the pixel count reaches the
ceiling). -/
theorem small_image_adaptive_skipped_despite_low_pixel_count :
    smallImage.width * smallImage.height < 10000000
    ∧ "adaptive" ∉ (generateVariants smallImage).map (fun v => v.1)
    ∧ adaptiveSkipLogged smallImage = false := by
  decide

/-- C8 amended.  `generate_variants` includes the adaptive variant exactly
when the image is strictly larger than 100×100 and its pixel count is
below ten million; the four other variants are always produced first, and
the skip is logged exactly when the pixel count reaches the ceiling (in
particular a small-dimension skip is silent).  A skip is never an error:
the remaining variants are still returned. -/
theorem adaptive_variant_condition (img : DynamicImage) :
    ("adaptive" ∈ (generateVariants img).map (fun v => v.1)
      ↔ 100 < img.width ∧ 100 < img.height ∧ img.width * img.height < 10000000)
    ∧ ((generateVariants img).map (fun v => v.1)).take 4
        = ["original", "contrast_enhanced", "otsu", "inverted"]
    ∧ (adaptiveSkipLogged img = true ↔ 10000000 ≤ img.width * img.height) := by
  refine ⟨?_, ?_, ?_⟩
  · simp only [generateVariants, toLuma8]
    split
    case isTrue h => exact iff_of_true (by simp) h
    case isFalse h => exact iff_of_false (by simp) h
  · simp only [generateVariants]
    split <;> rfl
  · simp only [adaptiveSkipLogged, toLuma8]
    split
    case isTrue h =>
      exact iff_of_false (by simp) (by omega)
    case isFalse h =>
      split
      case isTrue h2 => exact iff_of_true rfl h2
      case isFalse h2 => exact iff_of_false (by simp) h2

/-! ## Orchestrator lemmas -/

/-- The engine fold of `detect_qr_codes` with an arbitrary starting
accumulator. -/
def detectStepsFrom (variants : List (String × GrayImage))
    (p : Finset String × List (String × Finset String)) (engines : List Engine) :
    Finset String × List (String × Finset String) :=
  engines.foldl
    (fun acc e =>
      let codes := runEngine e variants
      (acc.1 ∪ codes, acc.2 ++ [(e.name, codes)]))
    p

theorem detectSteps_eq_from (engines : List Engine) (variants : List (String × GrayImage)) :
    detectSteps engines variants = detectStepsFrom variants (∅, []) engines := rfl

theorem detectStepsFrom_fst (variants : List (String × GrayImage)) :
    ∀ (engines : List Engine) (p : Finset String × List (String × Finset String)),
      (detectStepsFrom variants p engines).1
        = engines.foldl (fun a e => a ∪ runEngine e variants) p.1 := by
  intro engines
  induction engines with
  | nil => intro p; rfl
  | cons e rest ih =>
    intro p
    simpa [detectStepsFrom, List.foldl_cons] using
      ih (p.1 ∪ runEngine e variants, p.2 ++ [(e.name, runEngine e variants)])

theorem detectStepsFrom_snd (variants : List (String × GrayImage)) :
    ∀ (engines : List Engine) (p : Finset String × List (String × Finset String)),
      (detectStepsFrom variants p engines).2
        = p.2 ++ engines.map (fun e => (e.name, runEngine e variants)) := by
  intro engines
  induction engines with
  | nil => intro p; simp [detectStepsFrom]
  | cons e rest ih =>
    intro p
    have := ih (p.1 ∪ runEngine e variants, p.2 ++ [(e.name, runEngine e variants)])
    simp only [detectStepsFrom, List.foldl_cons] at this ⊢
    rw [this]
    simp

theorem globalPayloads_eq_foldl (engines : List Engine) (img : DynamicImage) :
    globalPayloads engines img
      = engines.foldl (fun a e => a ∪ runEngine e (scanVariants img)) ∅ := by
  unfold globalPayloads
  rw [detectSteps_eq_from, detectStepsFrom_fst]

theorem engineBreakdown_eq_map (engines : List Engine) (img : DynamicImage) :
    engineBreakdown engines img
      = engines.map (fun e => (e.name, runEngine e (scanVariants img))) := by
  unfold engineBreakdown
  rw [detectSteps_eq_from, detectStepsFrom_snd]
  simp

theorem foldl_union_init (g : Engine → Finset String) :
    ∀ (l : List Engine) (init : Finset String),
      l.foldl (fun a e => a ∪ g e) init = init ∪ l.foldl (fun a e => a ∪ g e) ∅ := by
  intro l
  induction l with
  | nil => intro init; simp
  | cons x xs ih =>
    intro init
    rw [List.foldl_cons, List.foldl_cons, ih (init ∪ g x), ih (∅ ∪ g x)]
    simp [Finset.union_assoc]

theorem mem_globalPayloads_of (engines : List Engine) (e : Engine) (s : String)
    (img : DynamicImage) (he : e ∈ engines)
    (hs : s ∈ runEngine e (scanVariants img)) :
    s ∈ globalPayloads engines img := by
  rw [globalPayloads_eq_foldl]
  induction engines with
  | nil => cases he
  | cons f fs ih =>
    rw [List.foldl_cons, foldl_union_init]
    rcases List.mem_cons.1 he with hef | hfs
    · subst hef
      exact Finset.mem_union_left _ (Finset.mem_union_right _ hs)
    · exact Finset.mem_union_right _ (ih hfs)

/-! ## C1: exact deduplication of the global payload set -/

/-- C1.  Every payload string decoded by at least one engine on at least
one variant (in particular a string decoded by two engines, or by two
variants of the same engine) occurs exactly once in the orchestrator's
final global payload list: deduplication is by exact string equality. -/
theorem decoded_payload_counted_once (engines : List Engine) (img : DynamicImage)
    (s : String) (h : ∃ e ∈ engines, s ∈ runEngine e (scanVariants img)) :
    (finalPayloadList engines img).count s = 1 := by
  obtain ⟨e, he, hs⟩ := h
  have hmem : s ∈ globalPayloads engines img := mem_globalPayloads_of engines e s img he hs
  unfold finalPayloadList setToList
  exact List.count_eq_one_of_mem (Finset.sort_nodup _ _) ((Finset.mem_sort _).2 hmem)

/-- An engine whose detection always answers `["HELLO"]`. -/
def helloEngineA : Engine := { name := "rqrr", detect := fun _ => Except.ok ["HELLO"] }

/-- A second engine decoding the same string. -/
def helloEngineB : Engine := { name := "rxing", detect := fun _ => Except.ok ["HELLO"] }

/-- A concrete 10×10 source image. -/
def tinyImage : DynamicImage := { width := 10, height := 10, luma := fun _ _ => 0 }

/-- C1 witness: two engines both decode "HELLO" on every variant of a
concrete image, and the final list still counts it exactly once. -/
theorem decoded_payload_counted_once_witness :
    (∃ e ∈ [helloEngineA, helloEngineB], "HELLO" ∈ runEngine e (scanVariants tinyImage))
    ∧ (finalPayloadList [helloEngineA, helloEngineB] tinyImage).count "HELLO" = 1 :=
  ⟨⟨helloEngineA, List.mem_cons_self _ _, by decide⟩,
   decoded_payload_counted_once [helloEngineA, helloEngineB] tinyImage "HELLO"
     ⟨helloEngineA, List.mem_cons_self _ _, by decide⟩⟩

/-! ## C2: the global set is the order-independent union of engine sets -/

/-- C2.  The global payload set of the five-engine orchestrator equals the
union of the five per-engine result sets, and for any permutation of the
engine list the global payload set is unchanged (only the per-engine
breakdown order can differ). -/
theorem global_set_is_union_and_order_independent
    (d₁ d₂ d₃ d₄ d₅ : GrayImage → Except String (List String))
    (engines engines' : List Engine) (img : DynamicImage)
    (hperm : engines.Perm engines') :
    globalPayloads (theEngines d₁ d₂ d₃ d₄ d₅) img
      = runEngine { name := "rqrr", detect := d₁ } (scanVariants img)
        ∪ runEngine { name := "rxing", detect := d₂ } (scanVariants img)
        ∪ runEngine { name := "quircs", detect := d₃ } (scanVariants img)
        ∪ runEngine { name := "bardecoder", detect := d₄ } (scanVariants img)
        ∪ runEngine { name := "zbar-pack", detect := d₅ } (scanVariants img)
    ∧ globalPayloads engines img = globalPayloads engines' img := by
  constructor
  · rw [globalPayloads_eq_foldl]
    simp [theEngines]
  · rw [globalPayloads_eq_foldl, globalPayloads_eq_foldl]
    exact @List.Perm.foldl_eq _ _ _ _ _
      ⟨fun b a₁ a₂ => Finset.union_right_comm b (runEngine a₁ (scanVariants img))
        (runEngine a₂ (scanVariants img))⟩ hperm ∅

/-- C2 witness: a concrete two-engine instance together with its swapped
permutation. -/
theorem global_set_is_union_and_order_independent_witness :
    globalPayloads
        (theEngines (fun _ => Except.ok ["HELLO"]) (fun _ => Except.ok ["HELLO"])
          (fun _ => Except.ok []) (fun _ => Except.ok []) (fun _ => Except.ok [])) tinyImage
      = runEngine { name := "rqrr", detect := fun _ => Except.ok ["HELLO"] }
            (scanVariants tinyImage)
        ∪ runEngine { name := "rxing", detect := fun _ => Except.ok ["HELLO"] }
            (scanVariants tinyImage)
        ∪ runEngine { name := "quircs", detect := fun _ => Except.ok [] }
            (scanVariants tinyImage)
        ∪ runEngine { name := "bardecoder", detect := fun _ => Except.ok [] }
            (scanVariants tinyImage)
        ∪ runEngine { name := "zbar-pack", detect := fun _ => Except.ok [] }
            (scanVariants tinyImage)
    ∧ globalPayloads [helloEngineA, helloEngineB] tinyImage
        = globalPayloads [helloEngineB, helloEngineA] tinyImage :=
  global_set_is_union_and_order_independent
    (fun _ => Except.ok ["HELLO"]) (fun _ => Except.ok ["HELLO"])
    (fun _ => Except.ok []) (fun _ => Except.ok []) (fun _ => Except.ok [])
    [helloEngineA, helloEngineB] [helloEngineB, helloEngineA] tinyImage
    (List.Perm.swap helloEngineB helloEngineA [])

/-! ## C4: engine failures are absorbed -/

/-- The per-engine accumulation ignores failing invocations: an engine
whose `detect` fails on every variant accumulates the empty set. -/
theorem runEngine_error_empty (e : Engine) (variants : List (String × GrayImage))
    (hfail : ∀ g : GrayImage, ∃ msg, e.detect g = Except.error msg) :
    runEngine e variants = ∅ := by
  induction variants with
  | nil => rfl
  | cons v vs ih =>
    obtain ⟨m, hm⟩ := hfail v.2
    simp only [runEngine, List.foldl_cons, hm] at ih ⊢
    exact ih

/-- C4.  An engine whose every invocation returns an error is absorbed: the
orchestrator still returns `Ok`, the failing engine contributes the empty
result set in the breakdown, the remaining engines (before and after it)
still run, and the global payload set is exactly the one of the engine
list without the failing engine. -/
theorem engine_failure_absorbed (pre post : List Engine) (e : Engine)
    (img : DynamicImage)
    (hfail : ∀ g : GrayImage, ∃ msg, e.detect g = Except.error msg) :
    detectQrCodes (pre ++ e :: post) img
      = Except.ok (globalPayloads (pre ++ post) img,
          engineBreakdown pre img
            ++ (e.name, (∅ : Finset String)) :: engineBreakdown post img) := by
  have hempty : runEngine e (scanVariants img) = ∅ := runEngine_error_empty e _ hfail
  unfold detectQrCodes
  have h1 : globalPayloads (pre ++ e :: post) img = globalPayloads (pre ++ post) img := by
    rw [globalPayloads_eq_foldl, globalPayloads_eq_foldl, List.foldl_append,
      List.foldl_append, List.foldl_cons, hempty, Finset.union_empty]
  have h2 : engineBreakdown (pre ++ e :: post) img
      = engineBreakdown pre img
        ++ (e.name, (∅ : Finset String)) :: engineBreakdown post img := by
    rw [engineBreakdown_eq_map, engineBreakdown_eq_map, engineBreakdown_eq_map,
      List.map_append, List.map_cons, hempty]
  have : detectSteps (pre ++ e :: post) (scanVariants img)
      = (globalPayloads (pre ++ e :: post) img, engineBreakdown (pre ++ e :: post) img) := rfl
  rw [this, h1, h2]

/-- An engine whose every invocation fails. -/
def failingEngine : Engine := { name := "rqrr", detect := fun _ => Except.error "boom" }

/-- C4 witness: with a concrete always-failing engine ahead of a concrete
succeeding engine, the orchestrator result is `Ok`, the failing engine
reports the empty set and the global set equals that of the remaining
engine alone. -/
theorem engine_failure_absorbed_witness :
    detectQrCodes [failingEngine, helloEngineB] tinyImage
      = Except.ok (globalPayloads [helloEngineB] tinyImage,
          engineBreakdown ([] : List Engine) tinyImage
            ++ ("rqrr", (∅ : Finset String)) :: engineBreakdown [helloEngineB] tinyImage) :=
  engine_failure_absorbed [] [helloEngineB] failingEngine tinyImage
    (fun _ => ⟨"boom", rfl⟩)

/-! ## Statistics lemmas -/

/-- The invariant the statistics accumulator maintains. -/
def StatsInv (s : ScanStats) : Prop :=
  s.successful_scans + s.failed_scans = s.total_files
  ∧ s.files_with_qr ≤ s.total_qr_codes

/-- `scan_file` either leaves the statistics unchanged (load failure), or
bumps the total/successful counters, additionally bumping the QR counters
by a positive code count when codes were found. -/
theorem scanFile_stats_shape (E : List Engine) (s : ScanStats) (p : String)
    (f : RawFile) (d : Nat) :
    (scanFile E s p f d).2 = s
    ∨ (scanFile E s p f d).2 =
        { s with total_files := s.total_files + 1,
                 successful_scans := s.successful_scans + 1,
                 total_duration := s.total_duration + d }
    ∨ ∃ k, 0 < k ∧ (scanFile E s p f d).2 =
        { s with total_files := s.total_files + 1,
                 successful_scans := s.successful_scans + 1,
                 total_duration := s.total_duration + d,
                 files_with_qr := s.files_with_qr + 1,
                 total_qr_codes := s.total_qr_codes + k } := by
  cases f with
  | unreadable => exact Or.inl rfl
  | badImage => exact Or.inl rfl
  | good img =>
    right
    simp only [scanFile, loadImage, detectQrCodes]
    by_cases hq : (setToList (detectSteps E (scanVariants img)).1).isEmpty
    · left
      simp [hq]
    · right
      refine ⟨(setToList (detectSteps E (scanVariants img)).1).length, ?_, ?_⟩
      · exact List.length_pos.2 (by simpa [List.isEmpty_iff] using hq)
      · simp [hq]

theorem statsInv_scanFile (E : List Engine) (s : ScanStats) (p : String)
    (f : RawFile) (d : Nat) (h : StatsInv s) : StatsInv (scanFile E s p f d).2 := by
  obtain ⟨ha, hb⟩ := h
  rcases scanFile_stats_shape E s p f d with h1 | h1 | ⟨k, hk, h1⟩ <;>
    rw [StatsInv, h1] <;> constructor <;> dsimp <;> omega

theorem statsInv_failBump (s : ScanStats) (h : StatsInv s) : StatsInv (failBump s) := by
  obtain ⟨ha, hb⟩ := h
  constructor <;> simp [failBump] <;> omega

theorem statsInv_scanDirStep (E : List Engine) (acc : List ScanResult × ScanStats)
    (e : DirEntry) (h : StatsInv acc.2) : StatsInv (scanDirStep E acc e).2 := by
  unfold scanDirStep
  split
  · split
    case h_1 r s' heq =>
      have hs : s' = (scanFile E acc.2 e.path e.file e.dur).2 := by rw [heq]
      simpa [hs] using statsInv_scanFile E acc.2 e.path e.file e.dur h
    case h_2 msg s' heq =>
      have hs : s' = (scanFile E acc.2 e.path e.file e.dur).2 := by rw [heq]
      simpa [hs] using
        statsInv_failBump _ (statsInv_scanFile E acc.2 e.path e.file e.dur h)
  · exact h

theorem statsInv_scanDirGo (E : List Engine) :
    ∀ (es : List DirEntry) (acc : List ScanResult × ScanStats),
      StatsInv acc.2 → StatsInv (scanDirGo E acc es).2 := by
  intro es
  induction es with
  | nil => intro acc h; exact h
  | cons e rest ih => intro acc h; exact ih _ (statsInv_scanDirStep E acc e h)

theorem statsInv_applyOp (E : List Engine) (s : ScanStats) (op : ScanOp)
    (h : StatsInv s) : StatsInv (applyOp E s op) := by
  cases op with
  | file p f d => exact statsInv_scanFile E s p f d h
  | dir es => exact statsInv_scanDirGo E es ([], s) h

/-! ## C3: the statistics invariant holds at every observation point -/

/-- C3.  After any sequence of `scan_file` / `scan_directory` operations on
a fresh scanner (hence at every observation point), the statistics satisfy
`successful_scans + failed_scans = total_files` and
`total_qr_codes ≥ files_with_qr`. -/
theorem stats_invariant_after_any_ops (E : List Engine) (ops : List ScanOp) :
    (runOps E ops).successful_scans + (runOps E ops).failed_scans
        = (runOps E ops).total_files
    ∧ (runOps E ops).files_with_qr ≤ (runOps E ops).total_qr_codes := by
  have main : ∀ (l : List ScanOp) (s : ScanStats), StatsInv s →
      StatsInv (l.foldl (applyOp E) s) := by
    intro l
    induction l with
    | nil => intro s h; exact h
    | cons op rest ih => intro s h; exact ih _ (statsInv_applyOp E s op h)
  exact main ops ScanStats.new ⟨rfl, Nat.le_refl 0⟩

/-! ## C10: a failed scan_file call leaves the statistics untouched -/

/-- C10.  When `scan_file` returns an error (unreadable file or
undecodable image), the statistics accumulator is completely unchanged:
the early `?` returns fire before any statistics field is touched. -/
theorem failed_scan_file_leaves_stats_unchanged (E : List Engine) (s : ScanStats)
    (p : String) (f : RawFile) (d : Nat) (msg : String)
    (h : (scanFile E s p f d).1 = Except.error msg) :
    (scanFile E s p f d).2 = s := by
  cases f with
  | unreadable => rfl
  | badImage => rfl
  | good img =>
    exfalso
    simp [scanFile, loadImage, detectQrCodes] at h

/-- A concrete non-fresh statistics accumulator. -/
def sampleStats : ScanStats :=
  { total_files := 3, successful_scans := 1, failed_scans := 2,
    files_with_qr := 1, total_qr_codes := 4, total_duration := 9,
    avg_duration_per_file := 0 }

/-- C10 witness: scanning an unreadable file errors out and every
statistics field keeps its previous value. -/
theorem failed_scan_file_leaves_stats_unchanged_witness :
    (scanFile [] sampleStats "a.png" RawFile.unreadable 7).1
        = Except.error ("Failed to read file: a.png")
    ∧ (scanFile [] sampleStats "a.png" RawFile.unreadable 7).2 = sampleStats :=
  ⟨rfl,
   failed_scan_file_leaves_stats_unchanged [] sampleStats "a.png" RawFile.unreadable 7
     ("Failed to read file: a.png") rfl⟩

/-! ## C5: file-level errors abort only that file -/

theorem scanDirGo_append (E : List Engine) :
    ∀ (l₁ l₂ : List DirEntry) (acc : List ScanResult × ScanStats),
      scanDirGo E acc (l₁ ++ l₂) = scanDirGo E (scanDirGo E acc l₁) l₂ := by
  intro l₁
  induction l₁ with
  | nil => intro l₂ acc; rfl
  | cons e rest ih => intro l₂ acc; exact ih l₂ (scanDirStep E acc e)

theorem scanDirStep_shift (E : List Engine) (r : List ScanResult) (s : ScanStats)
    (e : DirEntry) :
    scanDirStep E (r, s) e
      = (r ++ (scanDirStep E ([], s) e).1, (scanDirStep E ([], s) e).2) := by
  unfold scanDirStep
  cases himg : entryIsImage e with
  | false => simp [himg]
  | true =>
    cases hsf : scanFile E s e.path e.file e.dur with
    | mk res s2 =>
      cases res with
      | ok r2 => simp [himg, hsf]
      | error m => simp [himg, hsf]

theorem scanDirGo_shift (E : List Engine) :
    ∀ (l : List DirEntry) (r : List ScanResult) (s : ScanStats),
      scanDirGo E (r, s) l
        = (r ++ (scanDirGo E ([], s) l).1, (scanDirGo E ([], s) l).2) := by
  intro l
  induction l with
  | nil => intro r s; simp [scanDirGo]
  | cons e rest ih =>
    intro r s
    have h1 : scanDirGo E (r, s) (e :: rest)
        = scanDirGo E (scanDirStep E (r, s) e) rest := rfl
    have h2 : scanDirGo E ([], s) (e :: rest)
        = scanDirGo E (scanDirStep E ([], s) e) rest := rfl
    rw [h1, h2, scanDirStep_shift]
    rcases hstep : scanDirStep E ([], s) e with ⟨d, s2⟩
    dsimp only
    rw [ih (r ++ d) s2, ih d s2]
    simp [List.append_assoc]

/-- C5.  During a directory scan, a file whose load fails contributes one
failure entry — `success = false`, empty payload set, the non-empty load
error message — the failure counters are bumped, and the remaining entries
of the directory are still processed exactly as they would be. -/
theorem file_error_recorded_batch_continues (E : List Engine) (s : ScanStats)
    (pre post : List DirEntry) (e : DirEntry) (msg : String)
    (himg : entryIsImage e = true)
    (herr : loadImage e.path e.file = Except.error msg) :
    (scanDirectory E s (pre ++ e :: post)).1
      = (scanDirectory E s pre).1
        ++ ({ file_path := e.path, qr_codes := [], engine_results := [],
              success := false, error := some msg } : ScanResult)
          :: (scanDirectory E (failBump (scanDirectory E s pre).2) post).1
    ∧ msg ≠ "" := by
  constructor
  · have hsf : scanFile E (scanDirGo E ([], s) pre).2 e.path e.file e.dur
        = (Except.error msg, (scanDirGo E ([], s) pre).2) := by
      simp only [scanFile, herr]
    show (scanDirGo E ([], s) (pre ++ e :: post)).1 = _
    rw [scanDirGo_append]
    have hgo : scanDirGo E (scanDirGo E ([], s) pre) (e :: post)
        = scanDirGo E (scanDirStep E (scanDirGo E ([], s) pre) e) post := rfl
    rw [hgo]
    have hstep : scanDirStep E (scanDirGo E ([], s) pre) e
        = ((scanDirGo E ([], s) pre).1
            ++ [{ file_path := e.path, qr_codes := [], engine_results := [],
                  success := false, error := some msg }],
           failBump (scanDirGo E ([], s) pre).2) := by
      unfold scanDirStep
      rw [himg]
      simp only [if_true]
      rw [hsf]
    rw [hstep, scanDirGo_shift]
    simp only [List.append_assoc, List.singleton_append]
    rfl
  · have h21 : ("Failed to read file: " : String).length = 21 := rfl
    have h23 : ("Failed to decode image: " : String).length = 24 := rfl
    cases hf : e.file with
    | unreadable =>
      rw [hf] at herr
      simp only [loadImage, Except.error.injEq] at herr
      intro hemp
      have hlen := congrArg String.length herr
      rw [hemp] at hlen
      rw [String.length_append, h21] at hlen
      simp at hlen
    | badImage =>
      rw [hf] at herr
      simp only [loadImage, Except.error.injEq] at herr
      intro hemp
      have hlen := congrArg String.length herr
      rw [hemp] at hlen
      rw [String.length_append, h23] at hlen
      simp at hlen
    | good img =>
      rw [hf] at herr
      simp [loadImage] at herr

/-- A directory entry whose file is unreadable. -/
def badEntry : DirEntry :=
  { path := "bad.png", isFile := true, ext := some "png",
    file := RawFile.unreadable, dur := 3 }

/-- C5 witness: a one-entry directory whose sole image file is unreadable
yields exactly the failure entry with its non-empty message. -/
theorem file_error_recorded_batch_continues_witness :
    (scanDirectory [] ScanStats.new [badEntry]).1
      = (scanDirectory [] ScanStats.new []).1
        ++ ({ file_path := "bad.png", qr_codes := [], engine_results := [],
              success := false,
              error := some ("Failed to read file: bad.png") } : ScanResult)
          :: (scanDirectory [] (failBump (scanDirectory [] ScanStats.new []).2) []).1
    ∧ ("Failed to read file: bad.png" : String) ≠ "" :=
  file_error_recorded_batch_continues [] ScanStats.new [] [] badEntry
    ("Failed to read file: bad.png") (by decide) rfl

/-! ## C9: data-correction failures and the cleaner-image recommendation -/

/-- Concrete analyzer outcomes: quircs locates one region but fails
extraction, rxing fails with a checksum (data-correction) error, rqrr
finds nothing. -/
def checksumOutcomes : EngineOutcomes :=
  { rqrrGrids := [],
    quircsCodes := [Except.error QuircsExtractError.outOfBounds],
    rxingOutcome := Except.error (RxingException.checksumExc "") }

/-- C9 counterexample.  A file where rxing fails with `ChecksumException`
(a data-correction failure in the spec's taxonomy) while a region was
detected: the recommendation list does not contain the
recoverable-by-cleaner-image recommendation, because the code only matches
error types containing the substring "DataEcc". -/
theorem rxing_checksum_failure_no_cleaner_image_recommendation :
    (analyzeRxingError (RxingException.checksumExc "")).1 = "ChecksumException"
    ∧ ((analyzeWithRxing "original"
          (Except.error (RxingException.checksumExc ""))).decode_results.any
        (fun r => r.error_type == some ("ChecksumException"))) = true
    ∧ recDataEcc ∉ generateRecommendations (analyzeFileAnalyses "original" checksumOutcomes) :=
  ⟨rfl, by decide, by decide⟩

theorem any_rqrrGridAnalyses_of_mem (p : GridAnalysis → Bool)
    (g : Except DeQRError (RqrrMeta × String))
    (hp : ∀ i, p (rqrrGridAnalysis i g) = true) :
    ∀ (grids : List (Except DeQRError (RqrrMeta × String))) (i : Nat),
      g ∈ grids → (rqrrGridAnalyses i grids).any p = true := by
  intro grids
  induction grids with
  | nil => intro i h; cases h
  | cons a rest ih =>
    intro i h
    rcases List.mem_cons.1 h with rfl | hmem
    · simp [rqrrGridAnalyses, List.any_cons, hp i]
    · simp [rqrrGridAnalyses, List.any_cons, ih (i + 1) hmem]

theorem any_quircsCodeAnalyses_of_mem (p : GridAnalysis → Bool)
    (c : Except QuircsExtractError (Except QuircsDecodeError QuircsDecoded))
    (hp : ∀ i, p (quircsCodeAnalysis i c) = true) :
    ∀ (codes : List (Except QuircsExtractError (Except QuircsDecodeError QuircsDecoded)))
      (i : Nat), c ∈ codes → (quircsCodeAnalyses i codes).any p = true := by
  intro codes
  induction codes with
  | nil => intro i h; cases h
  | cons a rest ih =>
    intro i h
    rcases List.mem_cons.1 h with rfl | hmem
    · simp [quircsCodeAnalyses, List.any_cons, hp i]
    · simp [quircsCodeAnalyses, List.any_cons, ih (i + 1) hmem]

/-- C9 amended.  Whenever some rqrr grid or some quircs code fails with
the `DataEcc` data-correction error (the only error types whose tag
contains the substring "DataEcc"), the analyzer's recommendation list
contains the recoverable-by-cleaner-image recommendation; rxing checksum
and Reed-Solomon failures do not trigger it. -/
theorem data_ecc_failure_yields_cleaner_image_recommendation
    (variantName : String) (o : EngineOutcomes)
    (h : (∃ g ∈ o.rqrrGrids, g = Except.error DeQRError.dataEcc)
       ∨ (∃ c ∈ o.quircsCodes, c = Except.ok (Except.error QuircsDecodeError.dataEcc))) :
    recDataEcc ∈ generateRecommendations (analyzeFileAnalyses variantName o) := by
  have htot : ((analyzeFileAnalyses variantName o).map (fun a => a.grids_detected)).sum ≠ 0 := by
    rcases h with ⟨g, hg, _⟩ | ⟨c, hc, _⟩
    · have hlen := List.length_pos_of_mem hg
      cases hrx : o.rxingOutcome <;>
        simp [analyzeFileAnalyses, analyzeWithRqrr, analyzeWithQuircs, analyzeWithRxing,
          hrx] <;>
        exact fun hnil => absurd hnil (List.length_pos.1 hlen)
    · have hlen := List.length_pos_of_mem hc
      cases hrx : o.rxingOutcome <;>
        simp [analyzeFileAnalyses, analyzeWithRqrr, analyzeWithQuircs, analyzeWithRxing,
          hrx] <;>
        exact fun _ => List.length_pos.1 hlen
  have hdata : (analyzeFileAnalyses variantName o).any (fun a => a.decode_results.any (fun r =>
      match r.error_type with
      | some t => strContainsSub t ("DataEcc")
      | none => false)) = true := by
    rcases h with ⟨g, hg, hge⟩ | ⟨c, hc, hce⟩
    · have hany := any_rqrrGridAnalyses_of_mem
        (fun r => match r.error_type with
          | some t => strContainsSub t ("DataEcc")
          | none => false)
        g (by subst hge; intro i; rfl) o.rqrrGrids 0 hg
      simp [analyzeFileAnalyses, List.any_cons, analyzeWithRqrr, hany]
    · have hany := any_quircsCodeAnalyses_of_mem
        (fun r => match r.error_type with
          | some t => strContainsSub t ("DataEcc")
          | none => false)
        c (by subst hce; intro i; rfl) o.quircsCodes 0 hc
      simp [analyzeFileAnalyses, List.any_cons, analyzeWithQuircs, hany]
  simp only [generateRecommendations]
  rw [if_neg htot, if_pos hdata]
  split <;> split <;> simp

/-- Concrete analyzer outcomes where one rqrr grid fails with `DataEcc`. -/
def dataEccOutcomes : EngineOutcomes :=
  { rqrrGrids := [Except.error DeQRError.dataEcc],
    quircsCodes := [],
    rxingOutcome := Except.error (RxingException.notFound "") }

/-- C9-amended witness: a concrete file whose single rqrr grid fails with
`DataEcc` obtains the cleaner-image recommendation. -/
theorem data_ecc_failure_yields_cleaner_image_recommendation_witness :
    recDataEcc ∈ generateRecommendations (analyzeFileAnalyses "original" dataEccOutcomes) :=
  data_ecc_failure_yields_cleaner_image_recommendation "original" dataEccOutcomes
    (Or.inl ⟨Except.error DeQRError.dataEcc, List.mem_cons_self _ _, rfl⟩)

/-! ## Additional concrete instantiations -/

/-- C6 witness: the statement evaluated at a concrete image. -/
theorem variants_nonempty_original_first_uniform_dims_witness :
    (generateVariants tinyImage).isEmpty = false
    ∧ (generateVariants tinyImage).head? = some ("original", toLuma8 tinyImage)
    ∧ ((generateVariants tinyImage).map (fun v => (v.2.width, v.2.height))).all
        (fun wh => wh == (tinyImage.width, tinyImage.height)) = true :=
  variants_nonempty_original_first_uniform_dims tinyImage

/-- C7-amended witness: the statement evaluated at a concrete pixel
plane. -/
theorem oversized_image_downsampled_all_variants_witness :
    (workingImage (oversized (fun _ _ => 128))).width = 2000
    ∧ (workingImage (oversized (fun _ _ => 128))).height = 2000
    ∧ (generateVariants (workingImage (oversized (fun _ _ => 128)))).map (fun v => v.1)
        = ["original", "contrast_enhanced", "otsu", "inverted", "adaptive"]
    ∧ (workingImage (oversized (fun _ _ => 128))).width
        * (workingImage (oversized (fun _ _ => 128))).height * 255 < 4294967296 :=
  oversized_image_downsampled_all_variants (fun _ _ => 128)

/-- A concrete 150×150 source image. -/
def midImage : DynamicImage := { width := 150, height := 150, luma := fun _ _ => 0 }

/-- C8-amended witness: the statement evaluated at a concrete image above
the 100×100 guard and below the pixel ceiling. -/
theorem adaptive_variant_condition_witness :
    ("adaptive" ∈ (generateVariants midImage).map (fun v => v.1)
      ↔ 100 < midImage.width ∧ 100 < midImage.height
          ∧ midImage.width * midImage.height < 10000000)
    ∧ ((generateVariants midImage).map (fun v => v.1)).take 4
        = ["original", "contrast_enhanced", "otsu", "inverted"]
    ∧ (adaptiveSkipLogged midImage = true ↔ 10000000 ≤ midImage.width * midImage.height) :=
  adaptive_variant_condition midImage

/-- C3 witness: the statistics invariant after a concrete operation
sequence. -/
theorem stats_invariant_after_any_ops_witness :
    (runOps [] [ScanOp.file "a.png" RawFile.unreadable 1,
                ScanOp.dir [badEntry]]).successful_scans
        + (runOps [] [ScanOp.file "a.png" RawFile.unreadable 1,
                      ScanOp.dir [badEntry]]).failed_scans
      = (runOps [] [ScanOp.file "a.png" RawFile.unreadable 1,
                    ScanOp.dir [badEntry]]).total_files
    ∧ (runOps [] [ScanOp.file "a.png" RawFile.unreadable 1,
                  ScanOp.dir [badEntry]]).files_with_qr
        ≤ (runOps [] [ScanOp.file "a.png" RawFile.unreadable 1,
                      ScanOp.dir [badEntry]]).total_qr_codes :=
  stats_invariant_after_any_ops []
    [ScanOp.file "a.png" RawFile.unreadable 1, ScanOp.dir [badEntry]]

end QrTester
